import Mathlib

/-!
Verification of the pyompi / pyocomm communicator layer.

Buffers are modelled as one-dimensional integer arrays (`List Int`); a
shape is a length.  Each backend operation of the source is translated
into a pure Lean function.  Exceptions raised by the Python code are
modelled by the `Err` enumeration, one constructor per distinct raise
site.  Calls into the external transport (`self.comm.…`) are recorded as
`TCall` values: the transport itself is an external collaborator and is
not re-implemented here.
-/

/-- Memory space of a buffer: numpy arrays are Host, cupy arrays Device. -/
inductive Mem where
  | host
  | device
deriving DecidableEq, Repr

/-- Buffer: a fixed-shape region with a memory space and integer contents. -/
structure Buf where
  mem : Mem
  val : List Int
deriving DecidableEq, Repr

/-- Error kinds, one per raise site of the source.
`protocolError` models the ValueError raised on rank or root mismatch;
`emptyQueue` the ValueError "No data to receive.";
`shapeMismatch` the ValueError "Send and receive data shapes must match.";
`invalidOperation` the ValueError "Invalid reduction operation.";
`invalidStagingBuffer` the ValueError "Host buffer must be on a host array.";
`indexError` the IndexError from list.pop(0) on an empty list;
`attributeError` an AttributeError from looking up a missing attribute;
`keyError` the KeyError from an MPI namespace dictionary lookup;
`typeError` the TypeError from cupy set with a non-numpy argument;
`valueError` any other ValueError (for example a cupy get or set whose
out argument has a different shape, or a failed numpy slice assignment). -/
inductive Err where
  | protocolError
  | emptyQueue
  | shapeMismatch
  | invalidOperation
  | invalidStagingBuffer
  | indexError
  | attributeError
  | keyError
  | typeError
  | valueError
deriving DecidableEq, Repr

/-- Transport operators of mpi4py reachable through `MPI.__dict__[op.upper()]`. -/
inductive MpiOp where
  | sum
  | prod
  | max
  | min
  | land
  | band
  | lor
  | bor
deriving DecidableEq, Repr

/-- Transport interactions: one constructor per kind of `self.comm.…` call,
recording exactly the buffer arguments the source passes. -/
inductive TCall where
  | send (payload : Buf) (dest tag : Int)
  | bcast (obj : Option Buf) (root : Int)
  | scatter (sendArg recvArg : Buf) (root : Int)
  | gather (sendArg recvArg : Buf) (root : Int)
  | allgather (sendArg recvArg : Buf)
  | reduce (sendArg recvArg : Buf) (op : MpiOp) (root : Int)
  | allreduce (sendArg recvArg : Buf) (op : MpiOp)
  | alltoall (sendArg recvArg : Buf)
deriving DecidableEq, Repr

/-- State of the OBARE backend: the `send_buff` dict, a map from tag to the
FIFO list of pending (copied) payloads, modelled as an association list. -/
abbrev OState := List (Int × List (List Int))

/-- Heap of caller-owned arrays; array objects are modelled as indices into
the heap so that aliasing and in-place mutation are expressible. -/
abbrev Heap := List (List Int)

/-- Contents of the heap cell a pointer designates. -/
def heapGet (h : Heap) (p : Nat) : List Int := h.getD p []

/-- In-place overwrite of one heap cell. -/
def heapSet (h : Heap) (p : Nat) (v : List Int) : Heap := h.set p v

/-- Update of one key of the dict, keeping all other bindings. -/
def setTag (st : OState) (tag : Int) (q : List (List Int)) : OState :=
  match st with
  | [] => [(tag, q)]
  | (t, u) :: rest => if t = tag then (t, q) :: rest else (t, u) :: setTag rest tag q

/-- Appending to the tag queue: `if tag not in send_buff: send_buff[tag] = []`
followed by `send_buff[tag].append(…)`. -/
def enqueue (st : OState) (tag : Int) (v : List Int) : OState :=
  match List.lookup tag st with
  | none => setTag st tag [v]
  | some q => setTag st tag (q ++ [v])

/-- Result of the numpy slice assignment `buf[:] = v` when it succeeds:
either the lengths agree, or a length-one `v` broadcasts over `buf`. -/
def assignSlice (buf v : List Int) : List Int :=
  if v.length = buf.length then v else List.replicate buf.length (v.headD 0)

/-- OBARE.send: raises unless `dest` equals the local rank 0, then appends
`data.copy()` — the current VALUE of the heap cell, not the pointer — to
the tag queue.  Returns the error (if any) and the final dict. -/
def obareSendH (st : OState) (h : Heap) (p : Nat) (dest tag : Int) :
    Option Err × OState :=
  if dest ≠ 0 then ⟨some .protocolError, st⟩
  else ⟨none, enqueue st tag (heapGet h p)⟩

/-- OBARE.recv: raises unless `source` is 0; raises "No data to receive."
when the tag was never a key of the dict; otherwise runs
`buf[:] = self.send_buff[tag].pop(0)`.  The pop on an empty list raises an
IndexError; otherwise the pop removes the head FIRST, and only then is the
slice assignment attempted, which fails when the popped value cannot be
broadcast into `buf` — leaving the dict already mutated.  Returns the
error (if any), the final dict and the final heap. -/
def obareRecvH (st : OState) (h : Heap) (q : Nat) (source tag : Int) :
    Option Err × OState × Heap :=
  if source ≠ 0 then ⟨some .protocolError, st, h⟩
  else
    match List.lookup tag st with
    | none => ⟨some .emptyQueue, st, h⟩
    | some [] => ⟨some .indexError, st, h⟩
    | some (v :: rest) =>
        let st1 := setTag st tag rest
        let buf := heapGet h q
        if v.length = buf.length ∨ v.length = 1 then
          ⟨none, st1, heapSet h q (assignSlice buf v)⟩
        else ⟨some .valueError, st1, h⟩

/-- OBARE.bcast: raises unless `root` is 0, then returns `data` itself. -/
def obareBcast (data : List Int) (root : Int) : Except Err (List Int) :=
  if root ≠ 0 then .error .protocolError else .ok data

/-- OBARE.scatter: root check, then shape check, then `recv_data[:] = send_data`.
Returns the error (if any) and the final contents of `recv_data`. -/
def obareScatter (send recv : List Int) (root : Int) : Option Err × List Int :=
  if root ≠ 0 then ⟨some .protocolError, recv⟩
  else if send.length ≠ recv.length then ⟨some .shapeMismatch, recv⟩
  else ⟨none, send⟩

/-- OBARE.gather: identical body to OBARE.scatter. -/
def obareGather (send recv : List Int) (root : Int) : Option Err × List Int :=
  if root ≠ 0 then ⟨some .protocolError, recv⟩
  else if send.length ≠ recv.length then ⟨some .shapeMismatch, recv⟩
  else ⟨none, send⟩

/-- OBARE.allgather: shape check then copy; no root parameter. -/
def obareAllgather (send recv : List Int) : Option Err × List Int :=
  if send.length ≠ recv.length then ⟨some .shapeMismatch, recv⟩
  else ⟨none, send⟩

/-- OBARE.reduce: root check, shape check, then membership of `op` in
the list of sum, max and min, then copy. -/
def obareReduce (send recv : List Int) (op : String) (root : Int) :
    Option Err × List Int :=
  if root ≠ 0 then ⟨some .protocolError, recv⟩
  else if send.length ≠ recv.length then ⟨some .shapeMismatch, recv⟩
  else if ¬(op = "sum" ∨ op = "max" ∨ op = "min") then
    ⟨some .invalidOperation, recv⟩
  else ⟨none, send⟩

/-- OBARE.allreduce: shape check, operator check, copy; no root. -/
def obareAllreduce (send recv : List Int) (op : String) :
    Option Err × List Int :=
  if send.length ≠ recv.length then ⟨some .shapeMismatch, recv⟩
  else if ¬(op = "sum" ∨ op = "max" ∨ op = "min") then
    ⟨some .invalidOperation, recv⟩
  else ⟨none, send⟩

/-- OBARE.alltoall: shape check then copy. -/
def obareAlltoall (send recv : List Int) : Option Err × List Int :=
  if send.length ≠ recv.length then ⟨some .shapeMismatch, recv⟩
  else ⟨none, send⟩

/-- OBARE.split: raises unless `color` is 0, then evaluates `self.copy()`.
Neither OBARE nor its base class OCOMM defines a `copy` attribute, so the
attribute lookup raises an AttributeError on every call that passes the
color check. -/
def obareSplit (color _key : Int) : Except Err Unit :=
  if color ≠ 0 then .error .protocolError else .error .attributeError

/-- OBARE.dup: evaluates `self.copy()`, which does not exist — the
attribute lookup raises an AttributeError unconditionally. -/
def obareDup : Except Err Unit := .error .attributeError

/-- A fresh host array `np.empty_like(b)`: host-resident, same shape as `b`,
uninitialized contents described by the arbitrary fill function `g`. -/
def emptyLike (b : Buf) (g : Nat → Int) : Buf :=
  ⟨.host, (List.range b.val.length).map g⟩

/-- The result of `_get_module_from_array(x) == np` for a possibly absent
argument: `cp.get_array_module(None)` yields numpy, so `None` counts as host. -/
def modIsNp : Option Buf → Bool
  | none => true
  | some b => b.mem = .host

/-- Staging-buffer acquisition as inlined in ODAMPI.send, recv and scatter:
`if buffer is None: buffer = np.empty_like(data)` followed by
`if _get_module_from_array(buffer) != np: raise ValueError(…)`.
No shape or dtype comparison with the staged buffer is ever performed. -/
def acquireStaging (data : Buf) (supplied : Option Buf) (g : Nat → Int) :
    Except Err Buf :=
  match supplied with
  | none => .ok (emptyLike data g)
  | some b => if b.mem = .host then .ok b else .error .invalidStagingBuffer

/-- The acquisition step of ODAMPI.bcast: the source assigns the fresh
array to the dead local `host_buffer` instead of `comm_buffer`
(`if comm_buffer is None: host_buffer = np.empty_like(data)`), so when the
caller supplies nothing the staging buffer stays `None`, and the follow-up
module check passes because the module of `None` is numpy. -/
def bcastAcquire (_data : Buf) (supplied : Option Buf) : Except Err (Option Buf) :=
  match supplied with
  | none => .ok none
  | some b => if b.mem = .host then .ok (some b) else .error .invalidStagingBuffer

/-- ODAMPI.send: host data is forwarded verbatim; device data is staged
through `acquireStaging`, copied to host with `data.get(out=send_buffer)`
(which raises a ValueError when the out array has a different shape), and
the staged host copy is what is handed to the transport. -/
def odampiSend (data : Buf) (dest : Int) (sendBufOpt : Option Buf) (tag : Int)
    (g : Nat → Int) : Except Err TCall :=
  if data.mem = .host then .ok (.send data dest tag)
  else
    match acquireStaging data sendBufOpt g with
    | .error e => .error e
    | .ok sb =>
        if sb.val.length ≠ data.val.length then .error .valueError
        else .ok (.send ⟨.host, data.val⟩ dest tag)

/-- ODAMPI.bcast.  Output on success: the transport call made, the value the
Python function returns, and the final contents of the caller buffer `data`.
Host path: `self.comm.bcast(data, root)` and then NO return statement, so the
function returns `None`; the transport may fill the host buffer it was
passed, with contents abstracted by the parameter `tb`.
Device path: the fresh-allocation slip of `bcastAcquire` leaves the staging
buffer `None` when none is supplied, in which case the final
`data.set(arr=None)` raises a TypeError (after the transport call, whose
trace is collapsed by the error); with a supplied host buffer, the root
copies `data` into it (`data.get(out=…)`, shape-checked), the transport is
invoked on it, its post-call contents `tb` are copied back by
`data.set(arr=…)` (shape-checked), and the function returns the result of
`set`, which is `None`. -/
def odampiBcast (rank : Int) (data : Buf) (root : Int)
    (commBufOpt : Option Buf) (tb : List Int) :
    Except Err (TCall × Option Buf × Buf) :=
  if data.mem = .host then
    .ok ⟨.bcast (some data) root, none, ⟨data.mem, tb⟩⟩
  else
    if ¬ modIsNp commBufOpt then .error .invalidStagingBuffer
    else
      match commBufOpt with
      | none => .error .typeError
      | some cb =>
          if root = rank ∧ cb.val.length ≠ data.val.length then .error .valueError
          else
            let cb1 : Buf := if root = rank then ⟨cb.mem, data.val⟩ else cb
            if tb.length ≠ data.val.length then .error .valueError
            else .ok ⟨.bcast (some cb1) root, none, ⟨data.mem, tb⟩⟩

/-- ODAMPI.scatter.  Output on success: the transport call, the final
contents of the caller buffer `recv_data`, and the final contents of the
send staging buffer (when the device path ran).  The source first rejects
mixed array modules, forwards host pairs verbatim (the transport fills the
recv buffer with the chunk `tres`), and on the device path acquires both
staging buffers, copies `send_data` into the send staging buffer on the
root — but then invokes the transport on the ORIGINAL DEVICE buffers
`send_data` and `recv_data`, never on the staged host buffers, and finally
overwrites `recv_data` with the never-transported contents of the recv
staging buffer via `recv_data.set(arr=recv_buffer)` (shape-checked). -/
def odampiScatter (rank : Int) (send recv : Buf) (root : Int)
    (sendBufOpt recvBufOpt : Option Buf) (g1 g2 : Nat → Int)
    (tres : List Int) : Except Err (TCall × Buf × Option Buf) :=
  if send.mem ≠ recv.mem then .error .valueError
  else if send.mem = .host then
    .ok ⟨.scatter send recv root, ⟨recv.mem, tres⟩, none⟩
  else
    match acquireStaging send sendBufOpt g1 with
    | .error e => .error e
    | .ok sb =>
        match acquireStaging recv recvBufOpt g2 with
        | .error e => .error e
        | .ok rb =>
            if root = rank ∧ sb.val.length ≠ send.val.length then .error .valueError
            else
              let sb1 : Buf := if root = rank then ⟨sb.mem, send.val⟩ else sb
              if rb.val.length ≠ recv.val.length then .error .valueError
              else .ok ⟨.scatter send recv root, ⟨recv.mem, rb.val⟩, some sb1⟩

/-- ODAMPI.gather: `self.comm.gather(send_data, recv_data, root=root)` with a
`host_buffer` parameter that the body never reads. -/
def odampiGather (send recv : Buf) (root : Int) (_hostBuffer : Option Buf) : TCall :=
  .gather send recv root

/-- ODAMPI.allgather: `self.comm.Allgather(send_data, recv_data)`; the
`host_buffer` parameter is never read. -/
def odampiAllgather (send recv : Buf) (_hostBuffer : Option Buf) : TCall :=
  .allgather send recv

/-- Python str.upper for the ASCII operator names, character by character
(String.toUpper of the core library does not reduce in the kernel). -/
def opUpper (s : String) : String := String.mk (s.data.map Char.toUpper)

/-- Lookup of `MPI.__dict__[s]` restricted to the reduction operators the
mpi4py namespace actually contains; any other name raises a KeyError. -/
def mpiNamespaceLookup (s : String) : Option MpiOp :=
  if s = "SUM" then some .sum
  else if s = "PROD" then some .prod
  else if s = "MAX" then some .max
  else if s = "MIN" then some .min
  else if s = "LAND" then some .land
  else if s = "BAND" then some .band
  else if s = "LOR" then some .lor
  else if s = "BOR" then some .bor
  else none

/-- OMPI.reduce: `self.comm.Reduce(send, recv, op=MPI.__dict__[op.upper()], root)`.
No membership check against sum, max, min: any name present in the MPI
namespace is accepted, any other raises a KeyError. -/
def ompiReduce (send recv : Buf) (op : String) (root : Int) : Except Err TCall :=
  match mpiNamespaceLookup (opUpper op) with
  | none => .error .keyError
  | some o => .ok (.reduce send recv o root)

/-- OMPI.allreduce: same operator lookup, then `self.comm.Allreduce`. -/
def ompiAllreduce (send recv : Buf) (op : String) : Except Err TCall :=
  match mpiNamespaceLookup (opUpper op) with
  | none => .error .keyError
  | some o => .ok (.allreduce send recv o)

/-- ODAMPI.reduce: body identical to OMPI.reduce plus an unread
`host_buffer` parameter. -/
def odampiReduce (send recv : Buf) (op : String) (root : Int)
    (_hostBuffer : Option Buf) : Except Err TCall :=
  match mpiNamespaceLookup (opUpper op) with
  | none => .error .keyError
  | some o => .ok (.reduce send recv o root)

/-- ODAMPI.allreduce: body identical to OMPI.allreduce plus an unread
`host_buffer` parameter. -/
def odampiAllreduce (send recv : Buf) (op : String)
    (_hostBuffer : Option Buf) : Except Err TCall :=
  match mpiNamespaceLookup (opUpper op) with
  | none => .error .keyError
  | some o => .ok (.allreduce send recv o)

/-- ODAMPI.alltoall: `self.comm.Alltoall(send_data, recv_data)`; the
`host_buffer` parameter is never read. -/
def odampiAlltoall (send recv : Buf) (_hostBuffer : Option Buf) : TCall :=
  .alltoall send recv

/-- OMPI.scatter: forwards both buffers directly to the transport; no
validation of any kind precedes the call. -/
def ompiScatter (send recv : Buf) (root : Int) : TCall := .scatter send recv root

/-- OMPI.gather: forwards both buffers directly to the transport. -/
def ompiGather (send recv : Buf) (root : Int) : TCall := .gather send recv root

/-- OMPI.allgather: forwards both buffers directly to the transport. -/
def ompiAllgather (send recv : Buf) : TCall := .allgather send recv

/-- OMPI.alltoall: forwards both buffers directly to the transport. -/
def ompiAlltoall (send recv : Buf) : TCall := .alltoall send recv

/-- pyompi get_host: numpy arrays pass through, device arrays are copied to
a fresh host array (with a warning). -/
def getHost (b : Buf) : Buf := if b.mem = .host then b else ⟨.host, b.val⟩

/-- pyompi MPI.allreduce.  In module pyompi.core.mpi the statement
`class MPI(OMPI)` rebinds the module-global name MPI — previously the
imported mpi4py module — to the class itself, so every later lookup of
`MPI.COMM_WORLD` or `MPI.SUM` inside a method body raises an
AttributeError.  Hence: with the default `comm=None` the call fails at
`comm = MPI.COMM_WORLD`; with an explicit comm, both buffers are moved to
host by `get_host`, and then `op == "sum"` leads to
`comm.Allreduce(…, op=MPI.SUM)` whose keyword argument raises the
AttributeError before the transport is invoked, while any other `op`
string matches no branch at all and the function silently returns `None`
without any transport call.  Output on success: `none`, standing for the
absence of any transport interaction. -/
def pyompiAllreduce (commGiven : Bool) (sendbuf recvbuf : Buf) (op : String) :
    Except Err (Option TCall) :=
  if ¬ commGiven then .error .attributeError
  else
    let _sb := getHost sendbuf
    let _rb := getHost recvbuf
    if op = "sum" then .error .attributeError
    else .ok none

/-- Uninitialized-memory fill used in concrete scenarios: every cell 7. -/
def sevens : Nat → Int := fun _ => 7

/-- Uninitialized-memory fill used in concrete scenarios: every cell 0. -/
def zeros : Nat → Int := fun _ => 0

/-- C1: the claim states that a device-aware operation on device-resident
buffers copies each device input into host staging, invokes the transport
only on the staged host buffers, and copies staged outputs back.  The code
of ODAMPI.scatter does the opposite at the failing input below: on rank 0
with device buffers of length 3 and no caller-supplied staging, it fills
the send staging buffer but then passes the ORIGINAL DEVICE buffers to
`self.comm.scatter` and overwrites `recv_data` with the uninitialized
contents (fill 7) of the recv staging buffer, which the transport never
touched — the transport chunk [5, 6, 5] is discarded. -/
theorem odampi_scatter_ignores_staging :
    odampiScatter 0 (Buf.mk .device [1, 2, 3]) (Buf.mk .device [0, 0, 0]) 0
        none none sevens sevens [5, 6, 5]
      = .ok ⟨.scatter (Buf.mk .device [1, 2, 3]) (Buf.mk .device [0, 0, 0]) 0,
             Buf.mk .device [7, 7, 7],
             some (Buf.mk .host [1, 2, 3])⟩ := rfl

/-- C2: the claim states that bcast returns the root value to every
participant and, for the root, the very buffer that was passed in.  At the
failing input — ODAMPI.bcast on a host-resident array, rank 0, root 0 —
the host path of the source calls `self.comm.bcast(data, root)` and then
falls off the end of the function with no return statement, so the Python
value returned is None (the middle `none` below), not the data buffer,
although the docstring promises the broadcasted data. -/
theorem odampi_bcast_returns_none :
    odampiBcast 0 (Buf.mk .host [1, 2, 3]) 0 none [9, 9, 9]
      = .ok ⟨.bcast (some (Buf.mk .host [1, 2, 3])) 0, none,
             Buf.mk .host [9, 9, 9]⟩ := rfl

/-- C5: the claim states that split(color=0, key=k) returns a fresh
duplicate and dup() a fresh instance.  The code of OBARE.split and
OBARE.dup returns `self.copy()`, but neither OBARE nor its base class
defines a `copy` attribute, so both calls raise an AttributeError; only
the split(color!=0) ProtocolError clause behaves as claimed. -/
theorem obare_split_dup_attribute_error :
    obareSplit 0 7 = .error .attributeError
      ∧ obareSplit 3 0 = .error .protocolError
      ∧ obareDup = .error .attributeError :=
  ⟨rfl, rfl, rfl⟩

/-- C9: the claim states that recv on an empty tag queue always fails with
EmptyQueue.  In the run below, a send on tag 7 followed by a successful
recv leaves the tag bound to an empty list inside `send_buff`, so the
membership guard `tag not in self.send_buff` does not fire on the second
recv and `pop(0)` raises an IndexError instead of the intended
ValueError("No data to receive."). -/
theorem obare_recv_drained_queue_index_error :
    (obareSendH [] [[1]] 0 0 7).1 = none
      ∧ (obareRecvH (obareSendH [] [[1]] 0 0 7).2 [[0]] 0 0 7).1 = none
      ∧ obareRecvH (obareRecvH (obareSendH [] [[1]] 0 0 7).2 [[0]] 0 0 7).2.1
            [[0]] 0 0 7
          = ⟨some .indexError, [(7, [])], [[0]]⟩
      ∧ Err.indexError ≠ Err.emptyQueue := by
  decide

/-- C4 counterexample: the claim states that a failing operation leaves
every buffer and the tag queues exactly as they were.  Here recv is called
with a pending 3-element message but a 2-element receive buffer: the pop
dequeues the message first, then the slice assignment fails, so the call
errors while the tag queue has already lost its only message. -/
theorem obare_recv_failure_mutates_queue :
    (obareRecvH [(0, [[1, 2, 3]])] [[0, 0]] 0 0 0).1 = some .valueError
      ∧ (obareRecvH [(0, [[1, 2, 3]])] [[0, 0]] 0 0 0).2.1 ≠ [(0, [[1, 2, 3]])] := by
  decide

/-- C6 counterexample: the claim states that acquisition fails with
InvalidStagingBuffer when the supplied staging buffer does not match the
staged buffer in shape.  Here a host buffer of length 2 is supplied for a
device buffer of length 3 and is accepted unchanged: the source only
checks the array module, never shape or dtype. -/
theorem acquire_accepts_shape_mismatch :
    (Buf.mk .host [0, 0]).val.length ≠ (Buf.mk .device [1, 2, 3]).val.length
      ∧ acquireStaging (Buf.mk .device [1, 2, 3]) (some (Buf.mk .host [0, 0])) zeros
          = .ok (Buf.mk .host [0, 0]) :=
  ⟨by decide, rfl⟩

/-- C7 counterexample: the claim states that every backend rejects
mismatched shapes with ShapeMismatch before any transport call.  OMPI
performs no validation at all: on buffers of lengths 3 and 2 its scatter
is a direct transport call and no error precedes it. -/
theorem ompi_scatter_skips_shape_check :
    (Buf.mk .host [1, 2, 3]).val.length ≠ (Buf.mk .host [4, 5]).val.length
      ∧ ompiScatter (Buf.mk .host [1, 2, 3]) (Buf.mk .host [4, 5]) 0
          = .scatter (Buf.mk .host [1, 2, 3]) (Buf.mk .host [4, 5]) 0 := by
  decide

/-- C8 counterexample: the claim states that reduce fails with
InvalidOperation for every operator string outside sum, max, min.  OMPI
maps the string through `MPI.__dict__[op.upper()]`, so the string "prod"
— outside that set — is accepted and a PROD reduction is issued. -/
theorem ompi_reduce_accepts_prod :
    ompiReduce (Buf.mk .host [1]) (Buf.mk .host [0]) "prod" 0
        = .ok (.reduce (Buf.mk .host [1]) (Buf.mk .host [0]) .prod 0)
      ∧ "prod" ≠ "sum" ∧ "prod" ≠ "max" ∧ "prod" ≠ "min" :=
  ⟨rfl, by decide, by decide, by decide⟩

/-- C10: the device-aware gather, allgather, reduce, allreduce and alltoall
are observationally identical to the plain host backend: the buffers are
forwarded verbatim to the same transport call, no memory-space
classification or staging occurs, and the extra host_buffer parameter has
no influence on the result. -/
theorem odampi_collectives_match_ompi :
    (∀ (s r : Buf) (root : Int) (hb : Option Buf),
        odampiGather s r root hb = ompiGather s r root)
      ∧ (∀ (s r : Buf) (hb : Option Buf),
          odampiAllgather s r hb = ompiAllgather s r)
      ∧ (∀ (s r : Buf) (op : String) (root : Int) (hb : Option Buf),
          odampiReduce s r op root hb = ompiReduce s r op root)
      ∧ (∀ (s r : Buf) (op : String) (hb : Option Buf),
          odampiAllreduce s r op hb = ompiAllreduce s r op)
      ∧ (∀ (s r : Buf) (hb : Option Buf),
          odampiAlltoall s r hb = ompiAlltoall s r) :=
  ⟨fun _ _ _ _ => rfl, fun _ _ _ => rfl, fun _ _ _ _ _ => rfl,
   fun _ _ _ _ => rfl, fun _ _ _ => rfl⟩

/-- Looking up a tag immediately after setting it yields the new queue. -/
theorem lookup_setTag_self (st : OState) (tag : Int) (q : List (List Int)) :
    List.lookup tag (setTag st tag q) = some q := by
  induction st with
  | nil => simp [setTag, List.lookup]
  | cons hd tl ih =>
      obtain ⟨t, u⟩ := hd
      by_cases h : t = tag
      · simp [setTag, h, List.lookup]
      · simp only [setTag, if_neg h, List.lookup]
        have : (tag == t) = false := by
          simp [beq_iff_eq]
          exact fun hh => h hh.symm
        simp [this, ih]

/-- C3: on the single-process backend, a send to rank 0 on a tag with no
pending messages stores a copy of the current value of the data array, and
the following recv on that tag writes exactly that stored value into the
receive buffer — whatever the caller did to any array in the meantime: the
recv runs on an arbitrary later heap `h2`, so in particular one in which
the original data array was overwritten after the send. -/
theorem obare_send_recv_round_trip
    (st : OState) (h h2 : Heap) (p q : Nat) (tag : Int)
    (hq : List.lookup tag st = none ∨ List.lookup tag st = some [])
    (hlen : (heapGet h p).length = (heapGet h2 q).length) :
    obareRecvH (obareSendH st h p 0 tag).2 h2 q 0 tag
      = ⟨none, setTag (enqueue st tag (heapGet h p)) tag [],
         heapSet h2 q (heapGet h p)⟩ := by
  have hsend : (obareSendH st h p 0 tag).2 = enqueue st tag (heapGet h p) := by
    simp [obareSendH]
  rw [hsend]
  have henq : enqueue st tag (heapGet h p) = setTag st tag [heapGet h p] := by
    rcases hq with h1 | h1 <;> simp [enqueue, h1]
  have hlook : List.lookup tag (enqueue st tag (heapGet h p))
      = some [heapGet h p] := by
    rw [henq]; exact lookup_setTag_self st tag [heapGet h p]
  simp only [obareRecvH, hlook]
  simp [hlen, assignSlice]

/-- C3 witness: the concrete scenario of the spec — tag 5, send of the
array [1, 2, 3] living at heap cell 0, then the caller overwrites the
original array with [9, 9, 9]; recv into a fresh buffer at heap cell 1
still yields [1, 2, 3]. -/
theorem obare_send_recv_round_trip_case :
    obareRecvH (obareSendH [] [[1, 2, 3]] 0 0 5).2 [[9, 9, 9], [0, 0, 0]] 1 0 5
      = ⟨none, setTag (enqueue [] 5 (heapGet [[1, 2, 3]] 0)) 5 [],
         heapSet [[9, 9, 9], [0, 0, 0]] 1 (heapGet [[1, 2, 3]] 0)⟩ :=
  obare_send_recv_round_trip [] [[1, 2, 3]] [[9, 9, 9], [0, 0, 0]] 0 1 5
    (Or.inl rfl) (by decide)

/-- C4 (amended): on the single-process backend, every operation except
recv either completes or fails before mutating anything the caller can
see: a failing send leaves the tag queues unchanged, and a failing
collective leaves the receive buffer unchanged.  recv is the exception:
its wrong-source, never-sent-tag and drained-queue failures leave the
queues and the heap unchanged, but when a pending message cannot be
broadcast into the receive buffer the message has already been dequeued
when the write fails, so the call errors with the queue mutated and the
buffer untouched. -/
theorem obare_atomicity_amended :
    (∀ (st : OState) (h : Heap) (p : Nat) (dest tag : Int),
        ((obareSendH st h p dest tag).1).isSome → (obareSendH st h p dest tag).2 = st)
      ∧ (∀ (s r : List Int) (root : Int),
          ((obareScatter s r root).1).isSome → (obareScatter s r root).2 = r)
      ∧ (∀ (s r : List Int) (root : Int),
          ((obareGather s r root).1).isSome → (obareGather s r root).2 = r)
      ∧ (∀ (s r : List Int),
          ((obareAllgather s r).1).isSome → (obareAllgather s r).2 = r)
      ∧ (∀ (s r : List Int) (op : String) (root : Int),
          ((obareReduce s r op root).1).isSome → (obareReduce s r op root).2 = r)
      ∧ (∀ (s r : List Int) (op : String),
          ((obareAllreduce s r op).1).isSome → (obareAllreduce s r op).2 = r)
      ∧ (∀ (s r : List Int),
          ((obareAlltoall s r).1).isSome → (obareAlltoall s r).2 = r)
      ∧ (∀ (st : OState) (h : Heap) (q : Nat) (source tag : Int), source ≠ 0 →
          obareRecvH st h q source tag = ⟨some .protocolError, st, h⟩)
      ∧ (∀ (st : OState) (h : Heap) (q : Nat) (tag : Int),
          List.lookup tag st = none →
          obareRecvH st h q 0 tag = ⟨some .emptyQueue, st, h⟩)
      ∧ (∀ (st : OState) (h : Heap) (q : Nat) (tag : Int),
          List.lookup tag st = some [] →
          obareRecvH st h q 0 tag = ⟨some .indexError, st, h⟩)
      ∧ (∀ (st : OState) (h : Heap) (q : Nat) (tag : Int) (v : List Int)
            (rest : List (List Int)),
          List.lookup tag st = some (v :: rest) →
          ¬(v.length = (heapGet h q).length ∨ v.length = 1) →
          obareRecvH st h q 0 tag = ⟨some .valueError, setTag st tag rest, h⟩) := by
  refine ⟨?_, ?_, ?_, ?_, ?_, ?_, ?_, ?_, ?_, ?_, ?_⟩
  · intro st h p dest tag he
    by_cases hd : dest = 0 <;> simp [obareSendH, hd] at he ⊢
  · intro s r root he
    by_cases hr : root = 0 <;> by_cases hs : s.length = r.length <;>
      simp [obareScatter, hr, hs] at he ⊢
  · intro s r root he
    by_cases hr : root = 0 <;> by_cases hs : s.length = r.length <;>
      simp [obareGather, hr, hs] at he ⊢
  · intro s r he
    by_cases hs : s.length = r.length <;> simp [obareAllgather, hs] at he ⊢
  · intro s r op root he
    by_cases hr : root = 0 <;> by_cases hs : s.length = r.length <;>
      by_cases ho : (op = "sum" ∨ op = "max" ∨ op = "min") <;>
      simp [obareReduce, hr, hs, ho] at he ⊢
  · intro s r op he
    by_cases hs : s.length = r.length <;>
      by_cases ho : (op = "sum" ∨ op = "max" ∨ op = "min") <;>
      simp [obareAllreduce, hs, ho] at he ⊢
  · intro s r he
    by_cases hs : s.length = r.length <;> simp [obareAlltoall, hs] at he ⊢
  · intro st h q source tag hs
    simp [obareRecvH, hs]
  · intro st h q tag hl
    simp [obareRecvH, hl]
  · intro st h q tag hl
    simp [obareRecvH, hl]
  · intro st h q tag v rest hl hv
    simp [obareRecvH, hl, hv]

/-- C4 witness for the amended statement: a reduce with an unrecognized
operator fails and leaves the receive buffer [4, 5] unchanged, and a recv
of a pending 3-element message into a 2-element buffer fails with the
message already dequeued, the buffer untouched. -/
theorem obare_atomicity_amended_case :
    (obareReduce [1, 2] [4, 5] "prod" 0).2 = [4, 5]
      ∧ obareRecvH [(0, [[1, 2, 3]])] [[0, 0]] 0 0 0
          = ⟨some .valueError, setTag [(0, [[1, 2, 3]])] 0 [], [[0, 0]]⟩ :=
  ⟨obare_atomicity_amended.2.2.2.2.1 [1, 2] [4, 5] "prod" 0 (by decide),
   obare_atomicity_amended.2.2.2.2.2.2.2.2.2.2 [(0, [[1, 2, 3]])] [[0, 0]] 0 0
     [1, 2, 3] [] (by decide) (by decide)⟩

/-- C6 (amended): staging-buffer acquisition fails with
InvalidStagingBuffer exactly when the caller-supplied buffer is not
host-resident; no shape or dtype comparison is made, so a mismatched host
buffer is returned unchanged.  When no buffer is supplied, send, recv and
scatter allocate a fresh host buffer of the shape of the staged buffer;
in bcast the fresh allocation is bound to an unused local variable, so the
acquisition step there yields no staging buffer at all. -/
theorem acquire_staging_amended :
    (∀ (b s : Buf) (g : Nat → Int), s.mem = .host →
        acquireStaging b (some s) g = .ok s)
      ∧ (∀ (b s : Buf) (g : Nat → Int), s.mem = .device →
          acquireStaging b (some s) g = .error .invalidStagingBuffer)
      ∧ (∀ (b : Buf) (g : Nat → Int),
          acquireStaging b none g = .ok (emptyLike b g)
            ∧ (emptyLike b g).mem = .host
            ∧ (emptyLike b g).val.length = b.val.length)
      ∧ (∀ b : Buf, bcastAcquire b none = .ok none) := by
  refine ⟨?_, ?_, ?_, ?_⟩
  · intro b s g hs; simp [acquireStaging, hs]
  · intro b s g hs; simp [acquireStaging, hs]
  · intro b g; exact ⟨rfl, rfl, by simp [emptyLike]⟩
  · intro b; rfl

/-- C6 witness: a device-resident staging buffer is rejected with
InvalidStagingBuffer. -/
theorem acquire_staging_amended_case :
    acquireStaging (Buf.mk .device [1, 2, 3]) (some (Buf.mk .device [0, 0, 0])) zeros
      = .error .invalidStagingBuffer :=
  acquire_staging_amended.2.1 (Buf.mk .device [1, 2, 3]) (Buf.mk .device [0, 0, 0])
    zeros rfl

/-- C7 (amended): only the single-process backend checks shapes eagerly —
its scatter, gather, allgather and alltoall fail with ShapeMismatch
exactly when the two shapes differ, before any buffer is written — while
OMPI (and, per the gather/allgather/reduce/allreduce/alltoall equivalence,
ODAMPI) forwards the buffers to the transport without any shape or dtype
validation. -/
theorem shape_checks_amended :
    (∀ s r : List Int, s.length ≠ r.length →
        obareScatter s r 0 = ⟨some .shapeMismatch, r⟩
          ∧ obareGather s r 0 = ⟨some .shapeMismatch, r⟩
          ∧ obareAllgather s r = ⟨some .shapeMismatch, r⟩
          ∧ obareAlltoall s r = ⟨some .shapeMismatch, r⟩)
      ∧ (∀ s r : List Int, s.length = r.length →
          obareScatter s r 0 = ⟨none, s⟩
            ∧ obareGather s r 0 = ⟨none, s⟩
            ∧ obareAllgather s r = ⟨none, s⟩
            ∧ obareAlltoall s r = ⟨none, s⟩)
      ∧ (∀ (a b : Buf) (root : Int),
          ompiScatter a b root = .scatter a b root
            ∧ ompiGather a b root = .gather a b root)
      ∧ (∀ a b : Buf,
          ompiAllgather a b = .allgather a b ∧ ompiAlltoall a b = .alltoall a b) := by
  refine ⟨?_, ?_, ?_, ?_⟩
  · intro s r hne
    exact ⟨by simp [obareScatter, hne], by simp [obareGather, hne],
      by simp [obareAllgather, hne], by simp [obareAlltoall, hne]⟩
  · intro s r heq
    exact ⟨by simp [obareScatter, heq], by simp [obareGather, heq],
      by simp [obareAllgather, heq], by simp [obareAlltoall, heq]⟩
  · intro a b root; exact ⟨rfl, rfl⟩
  · intro a b; exact ⟨rfl, rfl⟩

/-- C7 witness: shapes 3 and 2 are rejected with ShapeMismatch by all four
single-process collectives, with the receive buffer left unchanged. -/
theorem shape_checks_amended_case :
    obareScatter [1, 2, 3] [4, 5] 0 = ⟨some .shapeMismatch, [4, 5]⟩
      ∧ obareGather [1, 2, 3] [4, 5] 0 = ⟨some .shapeMismatch, [4, 5]⟩
      ∧ obareAllgather [1, 2, 3] [4, 5] = ⟨some .shapeMismatch, [4, 5]⟩
      ∧ obareAlltoall [1, 2, 3] [4, 5] = ⟨some .shapeMismatch, [4, 5]⟩ :=
  shape_checks_amended.1 [1, 2, 3] [4, 5] (by decide)

/-- C8 (amended): the single-process backend validates the operator,
failing with InvalidOperation exactly when the string is outside sum, max,
min, and otherwise identity-copies.  OMPI and ODAMPI instead map the
string through `MPI.__dict__[op.upper()]`: every name present in the MPI
namespace — including prod, outside the claimed set — is accepted, and
unknown names fail with a KeyError.  The pyompi MPI.allreduce never
reduces at all: its class shadows the mpi4py module under the name MPI, so
with the default comm, or with op equal to sum, the lookup of
MPI.COMM_WORLD or MPI.SUM raises an AttributeError, and every other
operator string silently matches no branch and returns with no transport
call and no error. -/
theorem reduce_ops_amended :
    (∀ (s r : List Int) (op : String), s.length = r.length →
        ((obareReduce s r op 0 = ⟨none, s⟩) ↔ (op = "sum" ∨ op = "max" ∨ op = "min"))
          ∧ (((obareReduce s r op 0).1 = some .invalidOperation) ↔
              ¬(op = "sum" ∨ op = "max" ∨ op = "min"))
          ∧ ((obareAllreduce s r op = ⟨none, s⟩) ↔
              (op = "sum" ∨ op = "max" ∨ op = "min"))
          ∧ (((obareAllreduce s r op).1 = some .invalidOperation) ↔
              ¬(op = "sum" ∨ op = "max" ∨ op = "min")))
      ∧ (∀ (a b : Buf) (root : Int) (op : String),
          (mpiNamespaceLookup (opUpper op) = none →
              ompiReduce a b op root = .error .keyError
                ∧ ompiAllreduce a b op = .error .keyError)
            ∧ (∀ o : MpiOp, mpiNamespaceLookup (opUpper op) = some o →
                ompiReduce a b op root = .ok (.reduce a b o root)
                  ∧ ompiAllreduce a b op = .ok (.allreduce a b o)))
      ∧ mpiNamespaceLookup (opUpper "prod") = some .prod
      ∧ (∀ (sb rb : Buf) (op : String),
          pyompiAllreduce false sb rb op = .error .attributeError
            ∧ pyompiAllreduce true sb rb "sum" = .error .attributeError
            ∧ (op ≠ "sum" → pyompiAllreduce true sb rb op = .ok none)) := by
  refine ⟨?_, ?_, by decide, ?_⟩
  · intro s r op heq
    by_cases ho : (op = "sum" ∨ op = "max" ∨ op = "min") <;>
      refine ⟨?_, ?_, ?_, ?_⟩ <;> simp [obareReduce, obareAllreduce, heq, ho]
  · intro a b root op
    constructor
    · intro hn
      simp [ompiReduce, ompiAllreduce, hn]
    · intro o ho
      simp [ompiReduce, ompiAllreduce, ho]
  · intro sb rb op
    refine ⟨rfl, rfl, ?_⟩
    intro hop
    simp [pyompiAllreduce, hop]

/-- C8 witness: with an explicit comm, the pyompi allreduce on the
operator string prod returns with no error and no transport call. -/
theorem reduce_ops_amended_case :
    pyompiAllreduce true (Buf.mk .host [1]) (Buf.mk .host [0]) "prod" = .ok none :=
  (reduce_ops_amended.2.2.2 (Buf.mk .host [1]) (Buf.mk .host [0]) "prod").2.2
    (by decide)
